import Mathlib

/-!
Verification of the FNCS categories/auth REST API against its specification.

The Python sources are shallowly embedded: pure logic becomes Lean functions,
exceptions become explicit outcome constructors, and the effectful collaborators
(psycopg2 pool, PyJWT, bcrypt) are modelled at the granularity their documented
behaviour prescribes, with each model documented at its definition.
-/

namespace FNCS

/-! ## Embedding of src/utils/db.py (connection acquisition, lines 40-100)

`get_db_connection(retries, delay)` loops over `range(retries)`.  Each iteration
("attempt") tries the pool and then a direct connection; on an exception it
sleeps `delay * (attempt + 1)` seconds unless it was the last attempt, in which
case it raises.  The environment an attempt sees is abstracted by `AttemptEnv`:
the pool's condition, whether a direct `psycopg2.connect` would succeed, and
whether the `SET statement_timeout` statement would succeed.
-/

/-- Condition of the module-global `connection_pool` at one attempt:
`absent` models `connection_pool is None` (failed `initialize_connection_pool`),
`exhausted` models a pool whose `maxconn` connections are all in use,
`idle` models a pool with an idle connection available. -/
inductive PoolStatus
  | absent
  | exhausted
  | idle
deriving DecidableEq

/-- Environment one acquisition attempt runs in. -/
structure AttemptEnv where
  pool : PoolStatus
  directOk : Bool
  timeoutOk : Bool
deriving DecidableEq

/-- Whether a connection came from the pool (`connection_pool.getconn()`) or a
direct `psycopg2.connect` fallback. -/
inductive ConnKind
  | pooled
  | direct
deriving DecidableEq

/-- A connection as `get_db_connection` hands it out: its origin and the
server-side `statement_timeout` (milliseconds) that was set on it, if any. -/
structure Conn where
  kind : ConnKind
  statementTimeoutMs : Option Nat
deriving DecidableEq

/-- Outcome of one loop iteration of `get_db_connection`. -/
inductive AttemptOutcome
  | ok (c : Conn)
  | err (msg : String)
deriving DecidableEq

/-- One iteration of the `for attempt in range(retries)` body, db.py lines 63-86.

* pool `idle`: `connection_pool.getconn()` returns a connection (line 66); the
  code then attempts `SET statement_timeout = 30000` (lines 69-74) and swallows
  any failure, returning the connection either way (line 77).
* pool `absent`: `if connection_pool:` is false, so the code falls through to a
  direct `psycopg2.connect` (lines 80-86); if that raises, the iteration fails.
* pool `exhausted`: psycopg2's `SimpleConnectionPool.getconn` raises
  `PoolError("connection pool exhausted")` (it never returns `None`), and the
  exception propagates to the `except` of the retry loop (line 88).  The direct
  fallback on lines 80-86 is not reached. -/
def connectionAttempt (env : AttemptEnv) : AttemptOutcome :=
  match env.pool with
  | .idle =>
      if env.timeoutOk then .ok ⟨.pooled, some 30000⟩
      else .ok ⟨.pooled, none⟩
  | .absent =>
      if env.directOk then .ok ⟨.direct, none⟩
      else .err "connection failed"
  | .exhausted => .err "connection pool exhausted"

/-- Overall result of `get_db_connection`: a connection, a raised `Exception`
(line 100), or — for `retries = 0` — the Python function falling off the end of
the loop and returning `None`. -/
inductive AcqResult
  | got (c : Conn)
  | raised (msg : String)
  | fellThrough
deriving DecidableEq

/-- The retry loop of db.py lines 62-100, recursing on the number `k` of
iterations that remain; `i` is the 0-based `attempt` counter.  The first
component of the result accumulates the seconds spent in `time.sleep`:
`delay * (attempt + 1)` after a failed attempt that is not the last (lines
92-95), nothing after the last (lines 96-100). -/
def getDbConnLoop (envs : Nat → AttemptEnv) (retries delay : Nat) :
    Nat → Nat → Nat × AcqResult
  | 0, _ => (0, .fellThrough)
  | k + 1, i =>
    match connectionAttempt (envs i) with
    | .ok c => (0, .got c)
    | .err m =>
      if k = 0 then
        (0, .raised ("Failed to connect to database after " ++ toString retries
          ++ " attempts: " ++ m))
      else
        let rest := getDbConnLoop envs retries delay k (i + 1)
        (delay * (i + 1) + rest.1, rest.2)

/-- `get_db_connection(retries, delay)` of db.py lines 40-100, over a schedule
`envs` giving the environment each attempt sees.  Returns the cumulative
seconds slept and the final result. -/
def get_db_connection (retries delay : Nat) (envs : Nat → AttemptEnv) :
    Nat × AcqResult :=
  getDbConnLoop envs retries delay retries 0

/-- A store that is unreachable both through the pool (initialization failed,
pool absent) and directly (every `psycopg2.connect` raises). -/
def unreachableEnv : Nat → AttemptEnv := fun _ => ⟨.absent, false, true⟩

/-- A schedule where the pool is absent but direct connections succeed, with the
statement-timeout statement failing (its value is irrelevant on the direct
path, which never attempts it). -/
def poolDownDirectUp : Nat → AttemptEnv := fun _ => ⟨.absent, true, false⟩

/-! ## Embedding of src/utils/db.py `return_db_connection` (lines 103-144)

The pool is modelled as the sets of idle and borrowed connection ids, the
granularity at which psycopg2's `SimpleConnectionPool` tracks them
(`_pool` / `_used`).  A connection handle carries flags saying whether its
`rollback()` and `close()` methods would raise.  Every operation the function
performs is recorded in an effect trace, and `raised` records whether an
exception escaped the function.
-/

/-- Idle (`available`) and borrowed (`used`) connection ids of the pool. -/
structure PoolState where
  available : List Nat
  used : List Nat
deriving DecidableEq

/-- A connection handle as passed to `return_db_connection`, with the failure
behaviour of its methods. -/
structure ConnH where
  id : Nat
  rollbackRaises : Bool
  closeRaises : Bool
deriving DecidableEq

/-- Operations `return_db_connection` performs on the connection/pool. -/
inductive DbEffect
  | rollback
  | rollbackFailed
  | putconn
  | putconnFailed
  | close
  | closeFailed
deriving DecidableEq

/-- What a call to `return_db_connection` did: its effect trace, the pool state
afterwards, and whether an exception escaped the call. -/
structure ReleaseResult where
  effects : List DbEffect
  pool : Option PoolState
  raised : Bool
deriving DecidableEq

/-- The `conn.rollback()` of db.py lines 118-121: attempted first, its failure
caught by the inner `except` and merely logged. -/
def rollbackEffects (c : ConnH) : List DbEffect :=
  if c.rollbackRaises then [.rollbackFailed] else [.rollback]

/-- One `conn.close()` call and its outcome. -/
def closeEffects (c : ConnH) : List DbEffect :=
  if c.closeRaises then [.closeFailed] else [.close]

/-- `return_db_connection(conn)` of db.py lines 103-144.

* `conn` falsy (line 113): immediate return, nothing happens.
* Rollback attempted first (lines 118-121), failure swallowed.
* Pool present: `connection_pool.putconn(conn)` (line 126).  psycopg2's
  `_putconn` succeeds for a connection the pool handed out (its id is in
  `_used`), moving it back to the idle set; for a foreign/unknown connection it
  raises `PoolError("trying to put unkeyed connection")` without touching pool
  state.  The `except` on lines 128-133 then force-closes the connection,
  swallowing even a close failure with a bare `except`.
* Pool absent: `conn.close()` (line 135); if that raises, the outer `except`
  (lines 138-144) retries the close under a bare `except`, so nothing
  propagates. -/
def return_db_connection (pool : Option PoolState) (conn : Option ConnH) :
    ReleaseResult :=
  match conn with
  | none => ⟨[], pool, false⟩
  | some c =>
    match pool with
    | some ps =>
      if c.id ∈ ps.used then
        ⟨rollbackEffects c ++ [.putconn],
         some ⟨c.id :: ps.available, ps.used.erase c.id⟩, false⟩
      else
        ⟨rollbackEffects c ++ [.putconnFailed] ++ closeEffects c, some ps, false⟩
    | none =>
      if c.closeRaises then ⟨rollbackEffects c ++ [.closeFailed, .closeFailed], none, false⟩
      else ⟨rollbackEffects c ++ [.close], none, false⟩

/-! ## Connection lifecycle of the request handlers (C7)

What each handler does to the connection it borrows, as a function of whether
acquisition succeeded and whether the query part succeeded.  `closedDirect`
is a literal `conn.close()` — NOT a return to the pool. -/

/-- Actions a handler takes on its borrowed connection. -/
inductive ConnAction
  | acquired
  | committed
  | closedDirect
  | returnedToPool
deriving DecidableEq

/-- routes/category_routes.py `get_categories` (lines 30-55): on success the
handler calls `conn.close()` directly (line 43); if the query raises, the
`except` on line 51 answers 500 and the connection is dropped with neither a
close nor a return. -/
def get_categories_conn_trace (acquireOk queryOk : Bool) : List ConnAction :=
  if !acquireOk then []
  else if queryOk then [.acquired, .closedDirect]
  else [.acquired]

/-- routes/auth_routes.py `login` (lines 185-197): same shape — `conn.close()`
on line 197 on the success path, nothing on the exception path (the outer
`except` on line 244 answers 500). -/
def login_conn_trace (acquireOk queryOk : Bool) : List ConnAction :=
  if !acquireOk then []
  else if queryOk then [.acquired, .closedDirect]
  else [.acquired]

/-- routes/auth_routes.py `register` (lines 89-128): the `finally` on lines
126-128 returns the connection through `return_db_connection` on every path on
which it was acquired; the insert path also commits (line 101). -/
def register_conn_trace (acquireOk insertOk : Bool) : List ConnAction :=
  if !acquireOk then []
  else if insertOk then [.acquired, .committed, .returnedToPool]
  else [.acquired, .returnedToPool]

/-! ## Embedding of the Token Codec

The repo signs and verifies tokens through the PyJWT library
(`jwt.encode` at auth_routes.py:228, `jwt.decode` at auth_routes.py:284 and
auth_middleware.py:56-60).  The library is modelled at the level of its
documented behaviour: a signed token is its payload together with the key it
was signed under (an HMAC signature binds exactly the payload and the key);
decoding checks the signature against the verification key and then validates
the `exp` claim with zero leeway — PyJWT raises `ExpiredSignatureError` when
`exp <= now`, so a token is accepted strictly before its expiry instant. -/

/-- The payload `login` signs: auth_routes.py lines 221-226. -/
structure JwtPayload where
  user_id : Nat
  email : String
  iat : Int
  exp : Int
deriving DecidableEq

/-- A signed token: payload plus the secret it was signed under (modelling the
HMAC signature). -/
structure SignedToken where
  payload : JwtPayload
  sig : String
deriving DecidableEq

/-- Outcome of `jwt.decode`: success, `ExpiredSignatureError`, or
`InvalidTokenError` (bad signature or structure). -/
inductive DecodeResult
  | ok (p : JwtPayload)
  | expired
  | invalid
deriving DecidableEq

/-- Modelled from PyJWT `jwt.encode(payload, secret, algorithm)` as called at
auth_routes.py:228. -/
def jwtEncode (p : JwtPayload) (secret : String) : SignedToken := ⟨p, secret⟩

/-- Modelled from PyJWT `jwt.decode(token, secret, algorithms)`: the signature
is verified against the supplied secret (mismatch raises `InvalidTokenError`),
then the `exp` claim is validated with zero leeway (`exp <= now` raises
`ExpiredSignatureError`). -/
def jwtDecode (t : SignedToken) (secret : String) (now : Int) : DecodeResult :=
  if t.sig ≠ secret then .invalid
  else if t.payload.exp ≤ now then .expired
  else .ok t.payload

/-- The payload `login` builds at auth_routes.py lines 221-226: `iat = now`
and `exp = now + Config.JWT_ACCESS_TOKEN_EXPIRES`. -/
def loginPayload (uid : Nat) (email : String) (now ttl : Int) : JwtPayload :=
  ⟨uid, email, now, now + ttl⟩

/-- The token `login` issues at auth_routes.py line 228. -/
def loginToken (uid : Nat) (email : String) (now ttl : Int) (secret : String) :
    SignedToken :=
  jwtEncode (loginPayload uid email now ttl) secret

/-- Responses of the `/auth/verify` handler. -/
inductive VerifyResp
  | okData (user_id : Nat) (email : String) (expires_at : Int)
  | unauthorized (msg : String)
deriving DecidableEq

/-- auth_routes.py `verify_token`, lines 282-310 (after token extraction):
decode the token, answer 200 with `{user_id, email, expires_at}` on success,
401 "Token has expired" on `ExpiredSignatureError`, 401 "Invalid token" on
`InvalidTokenError`. -/
def verifyTokenCore (t : SignedToken) (secret : String) (now : Int) : VerifyResp :=
  match jwtDecode t secret now with
  | .ok p => .okData p.user_id p.email p.exp
  | .expired => .unauthorized "Token has expired"
  | .invalid => .unauthorized "Invalid token"

/-! ## Embedding of src/middleware/auth_middleware.py `token_required`
(lines 31-85)

Wire tokens are the strings carried in the header; what `jwt.decode` makes of
a given wire token is abstracted by a function `decode : String →
DecodeResult` (the middleware calls the codec opaquely).  Python's
`auth_header.split(" ")` splits at every single space, keeping empty chunks
(`"a  b".split(" ") == ["a", "", "b"]`, `"".split(" ") == [""]`), and
`split(" ")[1]` raises `IndexError` exactly when the split has fewer than two
parts. -/

/-- Helper for `pySplitSpace`: accumulates the current chunk (reversed). -/
def pySplitSpaceAux (cur : List Char) : List Char → List (List Char)
  | [] => [cur.reverse]
  | c :: cs =>
    if c = ' ' then cur.reverse :: pySplitSpaceAux [] cs
    else pySplitSpaceAux (c :: cur) cs

/-- Python's `s.split(" ")`: split at every single space, keeping empty
chunks. -/
def pySplitSpace (s : String) : List String :=
  (pySplitSpaceAux [] s.data).map String.mk

/-- What the extraction on auth_middleware.py lines 33-52 decides. -/
inductive ExtractResult
  | badFormat
  | missing
  | tok (s : String)
deriving DecidableEq

/-- Token extraction, auth_middleware.py lines 33-52: no header leaves `token`
as `None` (caught by `if not token`, line 48); a header without a space makes
`split(" ")[1]` raise `IndexError` (lines 41-45); an empty second component is
falsy and is also caught by `if not token`. -/
def extractToken (hdr : Option String) : ExtractResult :=
  match hdr with
  | none => .missing
  | some h =>
    match (pySplitSpace h)[1]? with
    | none => .badFormat
    | some t => if t = "" then .missing else .tok t

/-- Result of the `decorated` wrapper: a 401 without the wrapped operation
running, or the wrapped operation invoked with the injected identity. -/
inductive GateOutcome
  | unauthorized (msg : String)
  | ran (user_id : Nat) (email : String)
deriving DecidableEq

/-- The `decorated` wrapper of `token_required`, auth_middleware.py lines
32-83.  `.ran uid email` means `request.user_id`/`request.user_email` were
injected (lines 63-64) and the wrapped operation was called (line 83);
every `.unauthorized` branch returns before the wrapped operation runs. -/
def token_required (decode : String → DecodeResult) (hdr : Option String) :
    GateOutcome :=
  match extractToken hdr with
  | .badFormat =>
      .unauthorized "Invalid authorization header format. Use: Bearer <token>"
  | .missing => .unauthorized "Authentication token is missing"
  | .tok t =>
    match decode t with
    | .ok p => .ran p.user_id p.email
    | .expired => .unauthorized "Token has expired. Please login again."
    | .invalid => .unauthorized "Invalid token. Authentication failed."

/-- A concrete verification environment for witnesses: the wire string
"goodtok" verifies with payload `⟨1, "a@b.c", 0, 100⟩`, "exptok" is expired,
everything else is invalid. -/
def demoDecode : String → DecodeResult :=
  fun s =>
    if s = "goodtok" then .ok ⟨1, "a@b.c", 0, 100⟩
    else if s = "exptok" then .expired
    else .invalid

/-! ## Embedding of src/utils/password.py (Credential Hasher)

bcrypt (the `$2b$` algorithm) operates on at most the first 72 bytes of the
password: `bcrypt.hashpw` silently truncates longer inputs.  The randomized
salt that `bcrypt.gensalt()` draws is passed in explicitly, modelling the
randomness; the digest core is modelled as an injective function of the
truncated password bytes and the salt (an ideal hash — collisions between
distinct ≤ 72-byte inputs are not modelled), and the digest embeds its salt,
as a real `$2b$...` digest does. -/

/-- UTF-8 encoding of one character; password.py encodes with
`password.encode('utf-8')` before hashing. -/
def utf8Bytes (c : Char) : List Nat :=
  let n := c.toNat
  if n < 128 then [n]
  else if n < 2048 then [192 + n / 64, 128 + n % 64]
  else if n < 65536 then [224 + n / 4096, 128 + (n / 64) % 64, 128 + n % 64]
  else [240 + n / 262144, 128 + (n / 4096) % 64, 128 + (n / 64) % 64, 128 + n % 64]

/-- UTF-8 bytes of a string. -/
def strBytes (s : String) : List Nat :=
  (s.data.map utf8Bytes).flatten

/-- A bcrypt digest: the salt it embeds and the digest core, modelled as the
first 72 password bytes it was computed over (ideal injective hash). -/
structure BcryptDigest where
  salt : String
  core : List Nat
deriving DecidableEq

/-- Modelled from `bcrypt.hashpw(password, salt)`: truncate the password to
its first 72 UTF-8 bytes, digest with the salt, embed the salt. -/
def bcryptHashpw (password salt : String) : BcryptDigest :=
  ⟨salt, (strBytes password).take 72⟩

/-- Modelled from `bcrypt.checkpw(password, digest)`: re-hash the candidate
under the digest's own salt and compare. -/
def bcryptCheckpw (password : String) (d : BcryptDigest) : Bool :=
  bcryptHashpw password d.salt == d

/-- `hash_password` of password.py lines 9-31: raises `ValueError` on a falsy
(empty) password, otherwise `bcrypt.hashpw` under a fresh `bcrypt.gensalt()`
salt, here passed in explicitly. -/
def hash_password (password : String) (salt : String) :
    Except String BcryptDigest :=
  if password = "" then .error "Password cannot be empty"
  else .ok (bcryptHashpw password salt)

/-- The `password_hash` argument of `verify_password`: a parseable bcrypt
digest, or a string bcrypt cannot parse (including the empty string). -/
inductive HashInput
  | digest (d : BcryptDigest)
  | malformed (s : String)
deriving DecidableEq

/-- `verify_password` of password.py lines 34-61: false on a falsy password or
hash (line 52); `bcrypt.checkpw` raising on a malformed digest is caught at
line 60 and yields false. -/
def verify_password (password : String) (h : HashInput) : Bool :=
  if password = "" then false
  else
    match h with
    | .malformed _ => false
    | .digest d => bcryptCheckpw password d

/-- A well-formed bcrypt salt literal, standing for one `gensalt()` output. -/
def saltA : String := "$2b$12$abcdefghijklmnopqrstuv"

/-- A second, distinct salt, standing for another `gensalt()` output. -/
def saltB : String := "$2b$12$AAAAAAAAAAAAAAAAAAAAAA"

/-! ## The two `update_category` implementations (C10)

routes/category_routes.py lines 192-314 and app.py lines 230-343 implement
the same endpoint.  Both parse the body, validate it, check existence, and
assemble the SET clauses of a dynamic UPDATE; they differ only in the guard
before executing it. -/

/-- A parsed JSON body for update_category: the three recognized fields, each
independently present or absent (a present `description` may be null), plus
whatever other keys the client sent. -/
structure CategoryBody where
  name : Option String
  description : Option (Option String)
  is_active : Option Bool
  otherKeys : List String
deriving DecidableEq

/-- Python's `not data` on the parsed dict: true iff no key is present. -/
def bodyIsEmpty (d : CategoryBody) : Bool :=
  d.name.isNone && d.description.isNone && d.is_active.isNone && d.otherKeys.isEmpty

/-- `validate_category_data(data, is_update)` of utils/validators.py lines
68-96 (app.py lines 42-70 is textually identical): in this typed model the
`isinstance` checks cannot fail, leaving the presence, emptiness and length
checks on `name`. -/
def validate_category_data (d : CategoryBody) (isUpdate : Bool) :
    Bool × Option String :=
  if !isUpdate && d.name.isNone then (false, some "Field 'name' is required")
  else
    match d.name with
    | some n =>
      if n = "" then (false, some "Field 'name' must be a non-empty string")
      else if n.length > 100 then
        (false, some "Field 'name' must not exceed 100 characters")
      else (true, none)
    | none => (true, none)

/-- The SET clauses both versions assemble: category_routes.py lines 249-265,
app.py lines 278-294.  `updated_at = NOW()` is always appended last. -/
def updateFieldsFor (d : CategoryBody) : List String :=
  (match d.name with | some _ => ["name = %s"] | none => []) ++
  (match d.description with | some _ => ["description = %s"] | none => []) ++
  (match d.is_active with | some _ => ["is_active = %s"] | none => []) ++
  ["updated_at = NOW()"]

/-- Replies of update_category; `.ok clauses` records that an UPDATE with the
given SET clauses was executed and 200 returned. -/
inductive UpdateResponse
  | badRequest (msg : String)
  | notFound (id : Nat)
  | ok (setClauses : List String)
deriving DecidableEq

/-- routes/category_routes.py `update_category` (lines 192-314): the guard on
line 267, `if len(update_fields) == 1`, answers 400 "No valid fields to
update" without executing an UPDATE when only `updated_at` would be set. -/
def routes_update_category (categoryExists : Bool) (id : Nat)
    (body : Option CategoryBody) : UpdateResponse :=
  match body with
  | none => .badRequest "Request body is required"
  | some d =>
    if bodyIsEmpty d then .badRequest "Request body is required"
    else if !(validate_category_data d true).1 then
      .badRequest ((validate_category_data d true).2.getD "")
    else if !categoryExists then .notFound id
    else if (updateFieldsFor d).length == 1 then
      .badRequest "No valid fields to update"
    else .ok (updateFieldsFor d)

/-- app.py `update_category` (lines 230-343): identical except that the guard
on line 296 tests `if not update_fields:`, which is never true because
`updated_at = NOW()` was appended on line 294 — so once the category exists
the UPDATE always runs. -/
def app_update_category (categoryExists : Bool) (id : Nat)
    (body : Option CategoryBody) : UpdateResponse :=
  match body with
  | none => .badRequest "Request body is required"
  | some d =>
    if bodyIsEmpty d then .badRequest "Request body is required"
    else if !(validate_category_data d true).1 then
      .badRequest ((validate_category_data d true).2.getD "")
    else if !categoryExists then .notFound id
    else if (updateFieldsFor d).isEmpty then
      .badRequest "No valid fields to update"
    else .ok (updateFieldsFor d)

/-- A non-empty body containing none of the fields name, description,
is_active. -/
def strayBody : CategoryBody := ⟨none, none, none, ["foo"]⟩

/-! ## Theorems -/

/-- C1, counterexample: against an unreachable store with `retries = 3` and
`delay = 2`, `get_db_connection` sleeps 2 s after attempt 1 and 4 s after
attempt 2 and raises immediately after attempt 3, so the cumulative sleep is
2 + 4 = 6 s, not at least 12 s as the claim states; the raised error message
does carry the last underlying cause. -/
theorem C1_counterexample :
    (get_db_connection 3 2 unreachableEnv).1 = 6 ∧
    ¬ (12 ≤ (get_db_connection 3 2 unreachableEnv).1) ∧
    (get_db_connection 3 2 unreachableEnv).2 =
      .raised "Failed to connect to database after 3 attempts: connection failed" :=
  ⟨rfl, by decide, rfl⟩

/-- C1, amended: against an unreachable store with `max_retries = 3`,
`get_db_connection` applies a backoff of `base_delay × attempt_number` after
each failed attempt except the last, fails after exactly
`base_delay × 1 + base_delay × 2` (= 6 s for `base_delay = 2`) of cumulative
sleep, and raises an error carrying the last underlying cause. -/
theorem C1_amended (delay : Nat) (envs : Nat → AttemptEnv)
    (hpool : ∀ i, (envs i).pool = PoolStatus.absent)
    (hdir : ∀ i, (envs i).directOk = false) :
    (get_db_connection 3 delay envs).1 = delay * 1 + delay * 2 ∧
    (get_db_connection 3 delay envs).2 =
      .raised "Failed to connect to database after 3 attempts: connection failed" := by
  have hatt : ∀ i, connectionAttempt (envs i) = .err "connection failed" := by
    intro i
    simp [connectionAttempt, hpool i, hdir i]
  constructor
  · simp [get_db_connection, getDbConnLoop, hatt]
  · simp [get_db_connection, getDbConnLoop, hatt]
    decide

/-- C1, witness for the amended theorem at `delay = 2` and the concrete
unreachable schedule. -/
theorem C1_amended_witness :
    (get_db_connection 3 2 unreachableEnv).1 = 2 * 1 + 2 * 2 ∧
    (get_db_connection 3 2 unreachableEnv).2 =
      .raised "Failed to connect to database after 3 attempts: connection failed" :=
  C1_amended 2 unreachableEnv (fun _ => rfl) (fun _ => rfl)

/-- C5, counterexample: when the pool exists but is exhausted, psycopg2's
`getconn` raises and the attempt fails — even though a direct connection was
available (`directOk = true`), as the absent-pool attempt beside it shows.  The
direct fallback is reached only when the pool is absent, so "unavailable or
exhausted falls back to a direct connection" fails in the exhausted case. -/
theorem C5_counterexample :
    connectionAttempt ⟨.exhausted, true, true⟩ = .err "connection pool exhausted" ∧
    connectionAttempt ⟨.absent, true, true⟩ = .ok ⟨.direct, none⟩ :=
  ⟨rfl, rfl⟩

/-- C5, amended: when the pool is unavailable (failed initialization) an
acquisition attempt falls back to a direct unpooled connection; when the pool
is exhausted, `getconn` raises and that attempt fails into the retry loop
instead of falling back. -/
theorem C5_amended (env : AttemptEnv) :
    (env.pool = PoolStatus.absent → env.directOk = true →
      connectionAttempt env = .ok ⟨.direct, none⟩) ∧
    (env.pool = PoolStatus.exhausted →
      connectionAttempt env = .err "connection pool exhausted") := by
  obtain ⟨p, d, t⟩ := env
  cases p <;> simp [connectionAttempt]

/-- C5, witness for the amended theorem at concrete environments. -/
theorem C5_amended_witness :
    connectionAttempt ⟨.absent, true, true⟩ = .ok ⟨.direct, none⟩ ∧
    connectionAttempt ⟨.exhausted, false, true⟩ = .err "connection pool exhausted" :=
  ⟨(C5_amended ⟨.absent, true, true⟩).1 rfl rfl,
   (C5_amended ⟨.exhausted, false, true⟩).2 rfl⟩

/-- C8, counterexample: with the pool absent and the store reachable directly,
`get_db_connection` succeeds with a direct connection on which no statement
timeout was ever set — the `SET statement_timeout = 30000` block runs only on
the pooled path — so "on every successful acquisition a 30-second statement
timeout is set" fails. -/
theorem C8_counterexample :
    (get_db_connection 3 2 poolDownDirectUp).2 = .got ⟨.direct, none⟩ ∧
    (Conn.mk .direct none).statementTimeoutMs ≠ some 30000 :=
  ⟨rfl, by decide⟩

/-- C8, amended: on every successful POOLED acquisition, `get_db_connection`
sets a 30-second (30000 ms) server-side statement timeout on the connection;
if setting it fails, the connection is still returned, with no timeout set
(non-fatal).  Direct fallback connections get no statement timeout. -/
theorem C8_amended (env : AttemptEnv) (h : env.pool = PoolStatus.idle) :
    (env.timeoutOk = true → connectionAttempt env = .ok ⟨.pooled, some 30000⟩) ∧
    (env.timeoutOk = false → connectionAttempt env = .ok ⟨.pooled, none⟩) := by
  obtain ⟨p, d, t⟩ := env
  cases h
  cases t <;> simp [connectionAttempt]

/-- C8, witness for the amended theorem with the timeout statement succeeding
and failing. -/
theorem C8_amended_witness :
    connectionAttempt ⟨.idle, true, true⟩ = .ok ⟨.pooled, some 30000⟩ ∧
    connectionAttempt ⟨.idle, true, false⟩ = .ok ⟨.pooled, none⟩ :=
  ⟨(C8_amended ⟨.idle, true, true⟩ rfl).1 rfl,
   (C8_amended ⟨.idle, true, false⟩ rfl).2 rfl⟩

/-- C2: for every pool state and connection, `return_db_connection`
(1) is a no-op on a null/absent connection;
(2) issues a rollback before anything else;
(3) proceeds past a rollback failure (the trace never stops at the rollback);
(4) on a foreign/unknown connection, `putconn` fails, the connection is
force-closed instead of being leaked, and the pool state is unchanged;
(5) never lets an exception escape. -/
theorem C2_release_safe (pool : Option PoolState) (c : ConnH) (conn : Option ConnH) :
    (return_db_connection pool none = ⟨[], pool, false⟩) ∧
    ((return_db_connection pool (some c)).effects.head? =
      some (if c.rollbackRaises then DbEffect.rollbackFailed else DbEffect.rollback)) ∧
    (1 < (return_db_connection pool (some c)).effects.length) ∧
    (∀ ps, pool = some ps → c.id ∉ ps.used →
      (return_db_connection pool (some c)).effects =
        rollbackEffects c ++ [DbEffect.putconnFailed] ++ closeEffects c ∧
      (return_db_connection pool (some c)).pool = some ps) ∧
    ((return_db_connection pool conn).raised = false) := by
  refine ⟨rfl, ?_, ?_, ?_, ?_⟩
  · rcases pool with _ | ps <;>
      simp [return_db_connection, rollbackEffects, closeEffects] <;>
      rcases hr : c.rollbackRaises <;> rcases hc : c.closeRaises <;>
      simp [hr, hc] <;> split <;> simp
  · rcases pool with _ | ps <;>
      simp [return_db_connection, rollbackEffects, closeEffects] <;>
      rcases hr : c.rollbackRaises <;> rcases hc : c.closeRaises <;>
      simp [hr, hc] <;> split <;> simp
  · rintro ps rfl hmem
    simp [return_db_connection, hmem]
  · rcases conn with _ | c' <;> rcases pool with _ | ps <;>
      simp [return_db_connection] <;> split <;> simp

/-- C2, witness: the theorem instantiated at a pool with borrowed connection 1,
the well-behaved connection 1 itself, and a foreign connection 7. -/
theorem C2_release_safe_witness :
    (return_db_connection (some ⟨[0], [1]⟩) none = ⟨[], some ⟨[0], [1]⟩, false⟩) ∧
    ((return_db_connection (some ⟨[0], [1]⟩) (some ⟨7, false, false⟩)).effects =
        rollbackEffects ⟨7, false, false⟩ ++ [DbEffect.putconnFailed] ++
          closeEffects ⟨7, false, false⟩ ∧
      (return_db_connection (some ⟨[0], [1]⟩) (some ⟨7, false, false⟩)).pool =
        some ⟨[0], [1]⟩) ∧
    ((return_db_connection (some ⟨[0], [1]⟩) (some ⟨1, false, false⟩)).raised = false) :=
  ⟨(C2_release_safe (some ⟨[0], [1]⟩) ⟨7, false, false⟩ (some ⟨1, false, false⟩)).1,
   (C2_release_safe (some ⟨[0], [1]⟩) ⟨7, false, false⟩
      (some ⟨1, false, false⟩)).2.2.2.1 ⟨[0], [1]⟩ rfl (by decide),
   (C2_release_safe (some ⟨[0], [1]⟩) ⟨7, false, false⟩
      (some ⟨1, false, false⟩)).2.2.2.2⟩

/-- C7: evaluating the handlers' connection lifecycle shows the claim is
violated — `get_categories` and `login` close their borrowed connection with
`conn.close()` on the success path (leaking its pool slot, since the pooled
connection is never handed back through `return_db_connection`) and drop it
without any release on the query-failure path; only `register` returns its
connection to the Pool Manager. -/
theorem C7_code_eval :
    get_categories_conn_trace true true = [.acquired, .closedDirect] ∧
    ConnAction.returnedToPool ∉ get_categories_conn_trace true true ∧
    get_categories_conn_trace true false = [.acquired] ∧
    login_conn_trace true true = [.acquired, .closedDirect] ∧
    ConnAction.returnedToPool ∉ login_conn_trace true true ∧
    register_conn_trace true true = [.acquired, .committed, .returnedToPool] := by
  decide

/-- C3: for every subject id, contact and ttl, a token issued at login
(`jwt.encode` of `{user_id, email, iat = now, exp = now + ttl}` under the
shared secret) verifies at any time strictly before `now + ttl` to the
original subject id, contact and expiry, and at or after `now + ttl` fails
with "Token has expired". -/
theorem C3_round_trip (uid : Nat) (email : String) (t0 ttl t : Int)
    (secret : String) :
    (t < t0 + ttl →
      verifyTokenCore (loginToken uid email t0 ttl secret) secret t =
        .okData uid email (t0 + ttl)) ∧
    (t0 + ttl ≤ t →
      verifyTokenCore (loginToken uid email t0 ttl secret) secret t =
        .unauthorized "Token has expired") := by
  constructor
  · intro h
    simp only [verifyTokenCore, loginToken, jwtEncode, loginPayload, jwtDecode]
    simp [not_le.mpr h]
  · intro h
    simp only [verifyTokenCore, loginToken, jwtEncode, loginPayload, jwtDecode]
    simp [h]

/-- C3, witness at a concrete issuance verified before and at expiry. -/
theorem C3_round_trip_witness :
    verifyTokenCore (loginToken 1 "a@b.c" 0 10 "s") "s" 5 =
      .okData 1 "a@b.c" (0 + 10) ∧
    verifyTokenCore (loginToken 1 "a@b.c" 0 10 "s") "s" 10 =
      .unauthorized "Token has expired" :=
  ⟨(C3_round_trip 1 "a@b.c" 0 10 5 "s").1 (by decide),
   (C3_round_trip 1 "a@b.c" 0 10 10 "s").2 (by decide)⟩

/-- C4, counterexample: the header "Basic goodtok" is not of the form
`Bearer <token>` — its scheme word is "Basic" — yet `token_required` runs the
wrapped operation with the identity injected instead of answering 401,
because the code never inspects the scheme word. -/
theorem C4_counterexample :
    ((pySplitSpace "Basic goodtok")[0]? = some "Basic") ∧
    "Basic" ≠ "Bearer" ∧
    token_required demoDecode (some "Basic goodtok") = .ran 1 "a@b.c" := by
  decide

/-- C4, amended: if the Authorization header is missing, has no space-separated
second component, has an empty second component, or its second component fails
verification, the response is 401 and the wrapped operation never runs; if the
second component verifies, user_id and email are injected and the wrapped
operation runs.  The scheme word of the header is never checked. -/
theorem C4_amended (decode : String → DecodeResult) (hdr : Option String) :
    (hdr = none →
      token_required decode hdr = .unauthorized "Authentication token is missing") ∧
    (∀ h, hdr = some h → (pySplitSpace h)[1]? = none →
      token_required decode hdr =
        .unauthorized "Invalid authorization header format. Use: Bearer <token>") ∧
    (∀ h, hdr = some h → (pySplitSpace h)[1]? = some "" →
      token_required decode hdr = .unauthorized "Authentication token is missing") ∧
    (∀ h t, hdr = some h → (pySplitSpace h)[1]? = some t → t ≠ "" →
      decode t = .expired →
      token_required decode hdr =
        .unauthorized "Token has expired. Please login again.") ∧
    (∀ h t, hdr = some h → (pySplitSpace h)[1]? = some t → t ≠ "" →
      decode t = .invalid →
      token_required decode hdr =
        .unauthorized "Invalid token. Authentication failed.") ∧
    (∀ h t p, hdr = some h → (pySplitSpace h)[1]? = some t → t ≠ "" →
      decode t = .ok p →
      token_required decode hdr = .ran p.user_id p.email) := by
  refine ⟨?_, ?_, ?_, ?_, ?_, ?_⟩
  · rintro rfl; rfl
  · rintro h rfl hs
    simp [token_required, extractToken, hs]
  · rintro h rfl hs
    simp [token_required, extractToken, hs]
  · rintro h t rfl hs ht hd
    simp [token_required, extractToken, hs, ht, hd]
  · rintro h t rfl hs ht hd
    simp [token_required, extractToken, hs, ht, hd]
  · rintro h t p rfl hs ht hd
    simp [token_required, extractToken, hs, ht, hd]

/-- C4, witness: the amended theorem at concrete headers covering every
branch. -/
theorem C4_amended_witness :
    token_required demoDecode none =
      .unauthorized "Authentication token is missing" ∧
    token_required demoDecode (some "Bearer") =
      .unauthorized "Invalid authorization header format. Use: Bearer <token>" ∧
    token_required demoDecode (some "Bearer ") =
      .unauthorized "Authentication token is missing" ∧
    token_required demoDecode (some "Bearer exptok") =
      .unauthorized "Token has expired. Please login again." ∧
    token_required demoDecode (some "Bearer badtok") =
      .unauthorized "Invalid token. Authentication failed." ∧
    token_required demoDecode (some "Bearer goodtok") = .ran 1 "a@b.c" :=
  ⟨(C4_amended demoDecode none).1 rfl,
   (C4_amended demoDecode (some "Bearer")).2.1 "Bearer" rfl (by decide),
   (C4_amended demoDecode (some "Bearer ")).2.2.1 "Bearer " rfl (by decide),
   (C4_amended demoDecode (some "Bearer exptok")).2.2.2.1 "Bearer exptok"
     "exptok" rfl (by decide) (by decide) (by decide),
   (C4_amended demoDecode (some "Bearer badtok")).2.2.2.2.1 "Bearer badtok"
     "badtok" rfl (by decide) (by decide) (by decide),
   (C4_amended demoDecode (some "Bearer goodtok")).2.2.2.2.2 "Bearer goodtok"
     "goodtok" ⟨1, "a@b.c", 0, 100⟩ rfl (by decide) (by decide) (by decide)⟩

/-- C9: `token_required` never inspects the scheme word — for every header
whose space-split second component is a token that verifies, the wrapped
operation runs with the identity injected, even when the scheme word is not
"Bearer". -/
theorem C9_scheme_not_checked (decode : String → DecodeResult)
    (h scheme t : String) (p : JwtPayload)
    (hsplit0 : (pySplitSpace h)[0]? = some scheme)
    (hsplit1 : (pySplitSpace h)[1]? = some t)
    (hne : t ≠ "")
    (hdec : decode t = .ok p)
    (hscheme : scheme ≠ "Bearer") :
    token_required decode (some h) = .ran p.user_id p.email := by
  simp [token_required, extractToken, hsplit1, hne, hdec]

/-- C9, witness: a "Basic"-scheme header carrying a verifying token is
accepted. -/
theorem C9_scheme_not_checked_witness :
    token_required demoDecode (some "Basic goodtok") = .ran 1 "a@b.c" :=
  C9_scheme_not_checked demoDecode "Basic goodtok" "Basic" "goodtok"
    ⟨1, "a@b.c", 0, 100⟩ (by decide) (by decide) (by decide) (by decide)
    (by decide)

/-- C6, counterexample: bcrypt truncates passwords to 72 bytes, so for the
distinct passwords p = 72 a's and p2 = 73 a's, `verify_password p2
(hash_password p)` is true — refuting "verify_password(p, hash_password(p2))
is false when p ≠ p2". -/
theorem C6_counterexample :
    hash_password (String.mk (List.replicate 72 'a')) saltA =
      .ok (bcryptHashpw (String.mk (List.replicate 72 'a')) saltA) ∧
    String.mk (List.replicate 72 'a') ≠ String.mk (List.replicate 73 'a') ∧
    verify_password (String.mk (List.replicate 73 'a'))
      (.digest (bcryptHashpw (String.mk (List.replicate 72 'a')) saltA)) = true := by
  refine ⟨rfl, by decide, ?_⟩
  decide

/-- C6, amended: for nonempty passwords, `verify_password(p, hash_password(p))`
is true; `verify_password(p, hash_password(p2))` is false when p and p2 differ
within their first 72 UTF-8 bytes (bcrypt truncates longer passwords, so equal
72-byte prefixes verify interchangeably); and hashing the same password under
two distinct salts yields different digests that both verify. -/
theorem C6_amended (p p2 s s2 : String) (d d2 : BcryptDigest)
    (hp : p ≠ "")
    (hd : hash_password p s = .ok d)
    (hd2 : hash_password p2 s2 = .ok d2) :
    verify_password p (.digest d) = true ∧
    ((strBytes p).take 72 ≠ (strBytes p2).take 72 →
      verify_password p (.digest d2) = false) ∧
    (s ≠ s2 → p2 = p →
      d ≠ d2 ∧ verify_password p (.digest d2) = true) := by
  have hp2 : p2 ≠ "" := by
    intro h
    rw [h] at hd2
    simp [hash_password] at hd2
  rw [hash_password, if_neg hp] at hd
  rw [hash_password, if_neg hp2] at hd2
  cases hd
  cases hd2
  refine ⟨?_, ?_, ?_⟩
  · simp [verify_password, hp, bcryptCheckpw, bcryptHashpw]
  · intro hbytes
    simp [verify_password, hp, bcryptCheckpw, bcryptHashpw, BcryptDigest.mk.injEq,
      hbytes]
  · rintro hsalt rfl
    constructor
    · simp [bcryptHashpw, BcryptDigest.mk.injEq, hsalt]
    · simp [verify_password, hp, bcryptCheckpw, bcryptHashpw]

/-- C6, witness for the amended theorem: concrete passwords differing within
72 bytes and two distinct salts. -/
theorem C6_amended_witness :
    verify_password "hunter2" (.digest (bcryptHashpw "hunter2" saltA)) = true ∧
    verify_password "hunter2" (.digest (bcryptHashpw "swordfish" saltA)) = false ∧
    (bcryptHashpw "hunter2" saltA ≠ bcryptHashpw "hunter2" saltB ∧
      verify_password "hunter2" (.digest (bcryptHashpw "hunter2" saltB)) = true) :=
  ⟨(C6_amended "hunter2" "swordfish" saltA saltA
      (bcryptHashpw "hunter2" saltA) (bcryptHashpw "swordfish" saltA)
      (by decide) rfl rfl).1,
   (C6_amended "hunter2" "swordfish" saltA saltA
      (bcryptHashpw "hunter2" saltA) (bcryptHashpw "swordfish" saltA)
      (by decide) rfl rfl).2.1 (by decide),
   (C6_amended "hunter2" "hunter2" saltA saltB
      (bcryptHashpw "hunter2" saltA) (bcryptHashpw "hunter2" saltB)
      (by decide) rfl rfl).2.2 (by decide) rfl⟩

/-- C10: on the non-empty body `{"foo": ...}` containing none of name,
description, is_active (category existing), the routes version answers 400
"No valid fields to update" without executing an UPDATE while the app.py
version executes an UPDATE touching only `updated_at` and answers 200 — the
two implementations are not extensionally equivalent. -/
theorem C10_implementations_disagree :
    routes_update_category true 1 (some strayBody) =
      .badRequest "No valid fields to update" ∧
    app_update_category true 1 (some strayBody) = .ok ["updated_at = NOW()"] ∧
    routes_update_category true 1 (some strayBody) ≠
      app_update_category true 1 (some strayBody) ∧
    ¬ (∀ e i b, routes_update_category e i b = app_update_category e i b) := by
  refine ⟨by decide, by decide, by decide, fun hall => ?_⟩
  exact absurd (hall true 1 (some strayBody)) (by decide)

end FNCS
